import Mathlib

/-!
Verification of `vault_awx_update_role_id.py`: a one-shot script that reads a
secret from a Vault KV-v2 store and patches an AWX credential's `inputs`
mapping with it.  The script is embedded shallowly: Python/JSON values become
`PyValue`, the external services (Vault, AWX) are modelled by a `World` record
that fixes the outcome of each network call, and `main` becomes the pure
function `runMain : Args → World → RunResult` returning the exit code, the
printed lines and the list of network calls issued, in order.
-/

/-- A Python/JSON value as handled by the script (None, bool, int, str,
list, dict with string keys in insertion order). -/
inductive PyValue where
  | none
  | bool (b : Bool)
  | int (n : Int)
  | str (s : String)
  | list (elts : List PyValue)
  | obj (fields : List (String × PyValue))

/-- Python truthiness (`bool(v)`): None, False, 0, "", [] and \x7b\x7d are falsy. -/
def PyValue.truthy : PyValue → Bool
  | .none => false
  | .bool b => b
  | .int n => n != 0
  | .str s => !s.isEmpty
  | .list elts => !elts.isEmpty
  | .obj fields => !fields.isEmpty

/-- Python `str(v)` as used in the script's f-strings.  The script only ever
formats the credential id (an int in every AWX response) and strings, so the
container cases are rendered schematically. -/
def PyValue.pyStr : PyValue → String
  | .none => "None"
  | .bool true => "True"
  | .bool false => "False"
  | .int n => toString n
  | .str s => s
  | .list _ => "[...]"
  | .obj _ => "{...}"

/-- Python `d.get(k, dflt)`: on a dict, the value at `k` or the default;
on any other value an `AttributeError` is raised. -/
def PyValue.getd (v : PyValue) (k : String) (dflt : PyValue) : Except String PyValue :=
  match v with
  | .obj fields => .ok ((fields.lookup k).getD dflt)
  | _ => .error "AttributeError: object has no attribute get"

/-- Python `v[k]` for a string key: on a dict, the value at `k` or a
`KeyError`; on any other value a `TypeError`. -/
def PyValue.getitem (v : PyValue) (k : String) : Except String PyValue :=
  match v with
  | .obj fields =>
    match fields.lookup k with
    | some x => .ok x
    | Option.none => .error "KeyError"
  | _ => .error "TypeError: value is not subscriptable"

/-- Python `v[0]`: the first element of a list (or 1-character head of a
string); `IndexError` when empty, `TypeError` on non-sequences. -/
def PyValue.item0 : PyValue → Except String PyValue
  | .list (x :: _) => .ok x
  | .list [] => .error "IndexError: list index out of range"
  | .str s => if s.isEmpty then .error "IndexError" else .ok (.str (s.take 1))
  | _ => .error "TypeError: value is not subscriptable"

/-- Python dict item assignment `d[k] = v`: replaces the value at `k` in
place, keeping insertion order, or appends `(k, v)` when `k` is new. -/
def dictSet : List (String × PyValue) → String → PyValue → List (String × PyValue)
  | [], k, v => [(k, v)]
  | (k', v') :: rest, k, v =>
    if k' = k then (k, v) :: rest else (k', v') :: dictSet rest k v

/-- The parsed command line, one `Option String` per value flag
(`None` = flag absent), mirroring `parse_args`'s argument set. -/
structure Cli where
  vault_addr : Option String
  vault_secret : Option String
  key : Option String
  subkey : Option String
  awx_url : Option String
  cred_name : Option String
  username : Option String
  password : Option String
  no_verify_tls : Bool
  deriving DecidableEq

/-- The environment variables the script reads (`os.getenv`, `None` = unset). -/
structure Env where
  VAULT_ADDR : Option String
  VAULT_SECRET : Option String
  VAULT_KEY : Option String
  VAULT_SUBKEY : Option String
  AWX_URL : Option String
  AWX_CRED_NAME : Option String
  VAULT_USERNAME : Option String
  VAULT_PASSWORD : Option String
  deriving DecidableEq

/-- The resolved configuration (`args` after `parse_args`). -/
structure Args where
  vault_addr : Option String
  vault_secret : Option String
  key : Option String
  subkey : Option String
  awx_url : Option String
  cred_name : Option String
  username : Option String
  password : Option String
  no_verify_tls : Bool
  deriving DecidableEq

/-- `parse_args`: each flag defaults to its environment variable
(argparse `default=os.getenv(...)`), so an explicit flag wins. -/
def parse_args (c : Cli) (e : Env) : Args :=
  { vault_addr := c.vault_addr <|> e.VAULT_ADDR
    vault_secret := c.vault_secret <|> e.VAULT_SECRET
    key := c.key <|> e.VAULT_KEY
    subkey := c.subkey <|> e.VAULT_SUBKEY
    awx_url := c.awx_url <|> e.AWX_URL
    cred_name := c.cred_name <|> e.AWX_CRED_NAME
    username := c.username <|> e.VAULT_USERNAME
    password := c.password <|> e.VAULT_PASSWORD
    no_verify_tls := c.no_verify_tls }

/-- `getattr(args, param)` for the required-parameter loop. -/
def Args.getattr (a : Args) : String → Option String
  | "vault_addr" => a.vault_addr
  | "vault_secret" => a.vault_secret
  | "key" => a.key
  | "subkey" => a.subkey
  | "awx_url" => a.awx_url
  | "cred_name" => a.cred_name
  | "username" => a.username
  | "password" => a.password
  | _ => Option.none

/-- The `required` list of `main`, in source order. -/
def requiredNames : List String :=
  ["vault_addr", "vault_secret", "key", "subkey", "awx_url", "cred_name", "username"]

/-- One network call issued by the script, with the data it sent. -/
inductive NetCall where
  | vaultLogin (username password : String)
  | vaultRead (path : String)
  | awxFind (name : String)
  | awxFetch (credId : PyValue)
  | awxPatch (credId : PyValue) (body : PyValue)

/-- Outcome of one HTTP request against AWX: a raised exception (network
failure), or a response with status code, JSON body and raw text. -/
inductive HttpOutcome where
  | exc (msg : String)
  | resp (status : Nat) (body : PyValue) (text : String)

/-- The external world: what the user types at the password prompt and what
each service call returns.  `vaultRead` is the whole `read_secret_version`
response (the script indexes `["data"]["data"]` into it). -/
structure World where
  promptPassword : String
  vaultLoginExc : Option String
  vaultAuthenticated : Bool
  vaultRead : Except String PyValue
  awxFind : HttpOutcome
  awxFetch : HttpOutcome
  awxPatch : HttpOutcome

/-- Observable result of a run: process exit code, printed lines in order,
network calls in order, whether the password prompt fired, and the basic-auth
pair installed on the AWX session (if the run got that far). -/
structure RunResult where
  exitCode : Nat
  messages : List String
  calls : List NetCall
  prompted : Bool
  sessionAuth : Option (String × String)

/-- The body of the PATCH request, when one was issued. -/
def RunResult.patchBody (r : RunResult) : Option PyValue :=
  r.calls.findSome? fun c =>
    match c with
    | .awxPatch _ body => some body
    | _ => Option.none

/-! ### Console messages printed by `main`, one definition per `print` call. -/

/-- Line 51: missing required parameter. -/
def missingMsg (param : String) : String :=
  "❌ Missing required parameter: " ++ param ++ ". Use --" ++
    param.replace "_" "-" ++ " or environment variable."

/-- Line 65: exception during Vault login. -/
def vaultAuthErrorMsg (e : String) : String := "❌ Vault auth error: " ++ e

/-- Line 62: Vault rejected the credentials. -/
def vaultAuthFailedMsg : String := "❌ Vault authentication failed."

/-- Line 78: exception while reading the Vault secret. -/
def readErrorMsg (e : String) : String := "❌ Error reading Vault secret: " ++ e

/-- Line 74: the two-level lookup yielded no (truthy) value. -/
def retrieveFailMsg (k sk : String) : String :=
  "❌ Failed to retrieve '" ++ k ++ "." ++ sk ++ "' from Vault."

/-- Line 76: secret retrieved. -/
def retrievedMsg : String := "✅ Retrieved role_id from Vault"

/-- Line 97: exception while listing credentials by name. -/
def fetchCredErrorMsg (e : String) : String := "❌ Error fetching credential: " ++ e

/-- Line 92: empty result list. -/
def credNotFoundMsg (name : String) : String :=
  "❌ Credential '" ++ name ++ "' not found."

/-- Line 95: credential located. -/
def foundMsg (name idStr : String) : String :=
  "✅ Found credential '" ++ name ++ "' with ID " ++ idStr

/-- Line 107: exception while fetching the credential's details. -/
def fetchDetailsFailMsg (e : String) : String :=
  "❌ Failed to fetch credential details: " ++ e

/-- Line 115: PATCH accepted (status 200 or 202). -/
def updateSuccessMsg (name idStr : String) : String :=
  "✅ Successfully updated 'role_id' for credential '" ++ name ++ "' (ID " ++ idStr ++ ")"

/-- Line 117: PATCH returned any other status. -/
def updateFailMsg (status : Nat) (text : String) : String :=
  "❌ Failed to update credential: " ++ toString status ++ " " ++ text

/-- Line 119: exception during the PATCH request. -/
def updateErrorMsg (e : String) : String := "❌ Error during update: " ++ e

/-- Text of the `requests.HTTPError` raised by `raise_for_status` on a 4xx/5xx
status (only its prefix is modelled; no claim depends on its wording). -/
def httpErrorText (status : Nat) : String := toString status ++ " Error for url"

/-! ### The flow of `main`, one definition per commented section of the
source, each threading the accumulated output and call list. -/

/-- Output accumulated so far: printed lines, calls issued, whether the
password prompt fired, and the AWX session's basic-auth pair once set. -/
structure St where
  msgs : List String
  calls : List NetCall
  prompted : Bool
  sessionAuth : Option (String × String)

/-- `sys.exit(1)` after printing `finalMsg`. -/
def St.exit1 (st : St) (finalMsg : String) : RunResult :=
  { exitCode := 1, messages := st.msgs ++ [finalMsg], calls := st.calls,
    prompted := st.prompted, sessionAuth := st.sessionAuth }

/-- Falling off the end of `main` after printing `finalMsg`: exit code 0. -/
def St.exit0 (st : St) (finalMsg : String) : RunResult :=
  { exitCode := 0, messages := st.msgs ++ [finalMsg], calls := st.calls,
    prompted := st.prompted, sessionAuth := st.sessionAuth }

/-- Lines 110–119 (`Update role_id`): `current_inputs["role_id"] = role_id`
(line 111, outside any try: a non-dict raises an uncaught `TypeError`), then
`session.patch(cred_url, json={"inputs": current_inputs})` with 200/202 as
success; any exception or other status is reported but the process still
falls off the end of `main`, so the exit code is 0. -/
def updateStage (credName : String) (credId roleId currentInputs : PyValue)
    (w : World) (st : St) : RunResult :=
  match currentInputs with
  | .obj fields =>
    let body := PyValue.obj [("inputs", PyValue.obj (dictSet fields "role_id" roleId))]
    let st := { st with calls := st.calls ++ [NetCall.awxPatch credId body] }
    match w.awxPatch with
    | .exc e => st.exit0 (updateErrorMsg e)
    | .resp status _ text =>
      if status = 200 ∨ status = 202 then st.exit0 (updateSuccessMsg credName credId.pyStr)
      else st.exit0 (updateFailMsg status text)
  | _ =>
    { exitCode := 1,
      messages := st.msgs ++ ["Traceback (most recent call last): TypeError"],
      calls := st.calls, prompted := st.prompted, sessionAuth := st.sessionAuth }

/-- Lines 100–108 (`Fetch Current Inputs`): GET the credential by id,
`raise_for_status`, then `cred_response.json().get("inputs", \x7b\x7d)`. -/
def fetchStage (credName : String) (credId roleId : PyValue)
    (w : World) (st : St) : RunResult :=
  let st := { st with calls := st.calls ++ [NetCall.awxFetch credId] }
  match w.awxFetch with
  | .exc e => st.exit1 (fetchDetailsFailMsg e)
  | .resp status body _ =>
    if 400 ≤ status then st.exit1 (fetchDetailsFailMsg (httpErrorText status))
    else
      match body.getd "inputs" (PyValue.obj []) with
      | .error e => st.exit1 (fetchDetailsFailMsg e)
      | .ok currentInputs => updateStage credName credId roleId currentInputs w st

/-- Lines 86–98 (`Find Credential`): GET the name-filtered credential list,
`raise_for_status`, `response.json().get("results", [])`, abort when the
result list is falsy, else take `results[0]["id"]`. -/
def findStage (credName : String) (roleId : PyValue)
    (w : World) (st : St) : RunResult :=
  let st := { st with calls := st.calls ++ [NetCall.awxFind credName] }
  match w.awxFind with
  | .exc e => st.exit1 (fetchCredErrorMsg e)
  | .resp status body _ =>
    if 400 ≤ status then st.exit1 (fetchCredErrorMsg (httpErrorText status))
    else
      match body.getd "results" (PyValue.list []) with
      | .error e => st.exit1 (fetchCredErrorMsg e)
      | .ok results =>
        if !results.truthy then st.exit1 (credNotFoundMsg credName)
        else
          match results.item0.bind (fun r0 => r0.getitem "id") with
          | .error e => st.exit1 (fetchCredErrorMsg e)
          | .ok credId =>
            let st := { st with msgs := st.msgs ++ [foundMsg credName credId.pyStr] }
            fetchStage credName credId roleId w st

/-- Line 72, `secret_data.get(args.key, \x7b\x7d).get(args.subkey)`: the
two-level key lookup into the secret document (`.ok PyValue.none` when the
path yields nothing, `.error` when the level-1 value is not a dict). -/
def lookup2 (secretData : PyValue) (k sk : String) : Except String PyValue :=
  (secretData.getd k (PyValue.obj [])).bind (fun lvl => lvl.getd sk PyValue.none)

/-- Lines 68–84 (`Read Vault Secret` and `AWX Session`): read the versioned
secret, index `["data"]["data"]`, two-level `.get(key, \x7b\x7d).get(subkey)`
lookup, abort when the result is falsy; then install the AWX session's
basic-auth pair (same username/password as Vault) and continue. -/
def readStage (username loginPass vaultSecret k sk credName : String)
    (w : World) (st : St) : RunResult :=
  let st := { st with calls := st.calls ++ [NetCall.vaultRead vaultSecret] }
  match w.vaultRead with
  | .error e => st.exit1 (readErrorMsg e)
  | .ok readResponse =>
    match (readResponse.getitem "data").bind (fun d => d.getitem "data") with
    | .error e => st.exit1 (readErrorMsg e)
    | .ok secretData =>
      match lookup2 secretData k sk with
      | .error e => st.exit1 (readErrorMsg e)
      | .ok roleId =>
        if !roleId.truthy then st.exit1 (retrieveFailMsg k sk)
        else
          let st := { st with msgs := st.msgs ++ [retrievedMsg],
                              sessionAuth := some (username, loginPass) }
          findStage credName roleId w st

/-- Lines 57–66 (`Vault Client`): userpass login; an exception or an
unauthenticated client aborts with exit code 1. -/
def authStage (username loginPass vaultSecret k sk credName : String)
    (w : World) (st : St) : RunResult :=
  let st := { st with calls := st.calls ++ [NetCall.vaultLogin username loginPass] }
  match w.vaultLoginExc with
  | some e => st.exit1 (vaultAuthErrorMsg e)
  | Option.none =>
    if !w.vaultAuthenticated then st.exit1 vaultAuthFailedMsg
    else readStage username loginPass vaultSecret k sk credName w st

/-- `main` (lines 43–119): check the required parameters in order (first
missing one aborts before any network call), resolve the password
(`args.password or getpass.getpass(...)`: `None` or `""` triggers the
prompt), then run the linear pipeline against the world `w`. -/
def runMain (args : Args) (w : World) : RunResult :=
  match requiredNames.find? (fun p => (args.getattr p).isNone) with
  | some p =>
    { exitCode := 1, messages := [missingMsg p], calls := [],
      prompted := false, sessionAuth := Option.none }
  | Option.none =>
    let prompted :=
      match args.password with
      | some p => p.isEmpty
      | Option.none => true
    let loginPass := if prompted then w.promptPassword else args.password.getD ""
    authStage (args.username.getD "") loginPass (args.vault_secret.getD "")
      (args.key.getD "") (args.subkey.getD "") (args.cred_name.getD "") w
      { msgs := [], calls := [], prompted := prompted, sessionAuth := Option.none }

/-! ### Shared fixtures for the claims: a fully-populated configuration and a
world in which Vault authentication succeeds, parameterised by the parts the
individual claims vary. -/

/-- A configuration with every required field present. -/
def mkArgs (k sk name : String) (pwd : Option String) : Args :=
  { vault_addr := some "https://vault.example", vault_secret := some "secret/user1",
    key := some k, subkey := some sk, awx_url := some "https://awx.example",
    cred_name := some name, username := some "admin", password := pwd,
    no_verify_tls := false }

/-- A world where the Vault login succeeds and `read_secret_version` returns
the document `secretDoc` under `["data"]["data"]`; the three AWX outcomes are
free. -/
def mkWorld (secretDoc : PyValue) (fd ft pt : HttpOutcome) : World :=
  { promptPassword := "typed-at-prompt",
    vaultLoginExc := Option.none,
    vaultAuthenticated := true,
    vaultRead := .ok (.obj [("data", .obj [("data", secretDoc)])]),
    awxFind := fd, awxFetch := ft, awxPatch := pt }

/-- A secret document in which `k.sk` holds `v`. -/
def secretDocWith (k sk : String) (v : PyValue) : PyValue :=
  .obj [(k, .obj [(sk, v)])]

/-- A find-by-name response body whose `results` hold the given records. -/
def findBodyWith (records : List PyValue) : PyValue :=
  .obj [("results", .list records)]

/-- A fetched credential document whose `inputs` hold `fields`. -/
def fetchBodyWith (fields : List (String × PyValue)) : PyValue :=
  .obj [("inputs", .obj fields)]

/-- A world for the fully-successful path: secret `credentials.password`
holds `secretVal`, find-by-name returns `records`, the fetched credential is
`fetchBody`, and the PATCH outcome is `pt`. -/
def happyWorld (secretVal : PyValue) (records : List PyValue)
    (fetchBody : PyValue) (pt : HttpOutcome) : World :=
  mkWorld (secretDocWith "credentials" "password" secretVal)
    (.resp 200 (findBodyWith records) "")
    (.resp 200 fetchBody "")
    pt

/-! ### Facts about the dict-merge step (`current_inputs["role_id"] = role_id`). -/

/-- After `d[k] = v`, looking up `k` yields `v`. -/
theorem dictSet_lookup_self (l : List (String × PyValue)) (k : String) (v : PyValue) :
    (dictSet l k v).lookup k = some v := by
  induction l with
  | nil => simp [dictSet, List.lookup]
  | cons hd tl ih =>
    obtain ⟨k', v'⟩ := hd
    by_cases hk : k' = k
    · simp [dictSet, hk, List.lookup]
    · have hb : (k == k') = false := beq_eq_false_iff_ne.mpr (Ne.symm hk)
      simp [dictSet, hk, List.lookup, hb, ih]

/-- `d[k] = v` leaves every other key's value unchanged. -/
theorem dictSet_lookup_ne (l : List (String × PyValue)) (k : String) (v : PyValue)
    (k2 : String) (h : k2 ≠ k) : (dictSet l k v).lookup k2 = l.lookup k2 := by
  have hb : (k2 == k) = false := beq_eq_false_iff_ne.mpr h
  induction l with
  | nil => simp [dictSet, List.lookup, hb]
  | cons hd tl ih =>
    obtain ⟨k', v'⟩ := hd
    by_cases hk : k' = k
    · subst hk
      simp [dictSet, List.lookup, hb]
    · simp [dictSet, hk, List.lookup, ih]

/-- `d[k] = v` adds no key beyond `k` and removes none. -/
theorem dictSet_keys (l : List (String × PyValue)) (k : String) (v : PyValue)
    (k2 : String) :
    k2 ∈ (dictSet l k v).map Prod.fst ↔ k2 ∈ l.map Prod.fst ∨ k2 = k := by
  induction l with
  | nil => simp [dictSet]
  | cons hd tl ih =>
    obtain ⟨k', v'⟩ := hd
    by_cases hk : k' = k
    · subst hk
      simp [dictSet]
      tauto
    · simp [dictSet, hk, ih]
      tauto

/-- C1: the merge step preserves every pre-existing field of the fetched
`inputs` mapping except the one being overwritten: for every fetched inputs
mapping `inp` and every (truthy) retrieved role-id value `r`, the submitted
PATCH body is the fetched mapping with exactly the key `"role_id"` bound to
`r`, every other key bound to its original value, and no key added or
dropped besides `"role_id"`. -/
theorem claim1_merge_preserves_inputs
    (inp : List (String × PyValue)) (r : PyValue) (hr : r.truthy = true) :
    (runMain (mkArgs "credentials" "password" "cred" (some "pw"))
        (happyWorld r [.obj [("id", .int 42)]] (fetchBodyWith inp)
          (.resp 200 (.obj []) "OK"))).patchBody
      = some (.obj [("inputs", .obj (dictSet inp "role_id" r))])
    ∧ (dictSet inp "role_id" r).lookup "role_id" = some r
    ∧ (∀ k2, k2 ≠ "role_id" → (dictSet inp "role_id" r).lookup k2 = inp.lookup k2)
    ∧ (∀ k2, k2 ∈ (dictSet inp "role_id" r).map Prod.fst ↔
        k2 ∈ inp.map Prod.fst ∨ k2 = "role_id") := by
  refine ⟨?_, dictSet_lookup_self inp _ r,
    fun k2 h => dictSet_lookup_ne inp _ r k2 h, fun k2 => dictSet_keys inp _ r k2⟩
  simp [runMain, mkArgs, mkWorld, happyWorld, secretDocWith, findBodyWith, fetchBodyWith,
    requiredNames, Args.getattr, authStage, readStage, findStage, fetchStage, updateStage,
    lookup2, PyValue.getd, Except.bind, PyValue.getitem, PyValue.item0, List.lookup,
    show ("pw".isEmpty = false) from rfl, hr, St.exit1, St.exit0,
    RunResult.patchBody, List.findSome?]

/-- C1 witness: the spec's own example — inputs `\x7b"a":1,"b":2\x7d` and
role-id `"X"` yield the body `\x7b"inputs": \x7b"a":1,"b":2,"role_id":"X"\x7d\x7d`. -/
theorem claim1_merge_preserves_inputs_witness :
    (PyValue.str "X").truthy = true ∧
    (runMain (mkArgs "credentials" "password" "cred" (some "pw"))
        (happyWorld (.str "X") [.obj [("id", .int 42)]]
          (fetchBodyWith [("a", .int 1), ("b", .int 2)])
          (.resp 200 (.obj []) "OK"))).patchBody
      = some (.obj [("inputs",
          .obj [("a", .int 1), ("b", .int 2), ("role_id", .str "X")])]) :=
  ⟨rfl, (claim1_merge_preserves_inputs [("a", .int 1), ("b", .int 2)]
    (.str "X") rfl).1⟩

/-- `List.find?` returns `f` when `f` satisfies the test and every other
element of the list fails it. -/
theorem find?_eq_of_mem_unique {α : Type} {p : α → Bool} {l : List α} {f : α}
    (hf : f ∈ l) (hpf : p f = true) (h : ∀ g ∈ l, g ≠ f → p g = false) :
    l.find? p = some f := by
  induction l with
  | nil => cases hf
  | cons a t ih =>
    by_cases ha : a = f
    · subst ha
      simp [List.find?, hpf]
    · have hpa : p a = false := h a (List.mem_cons_self a t) ha
      have hft : f ∈ t := by
        rcases List.mem_cons.mp hf with h1 | h2
        · exact absurd h1.symm ha
        · exact h2
      simp only [List.find?, hpa]
      exact ih hft (fun g hg => h g (List.mem_cons_of_mem a hg))

/-- C2: for every required configuration field, a run whose resolved
configuration (flags with environment fallback) lacks exactly that field
exits with code 1 and the missing-parameter message naming it, before any
network call (the call list is empty). -/
theorem claim2_missing_param_aborts (c : Cli) (e : Env) (w : World) (f : String)
    (hf : f ∈ requiredNames)
    (hmiss : (parse_args c e).getattr f = Option.none)
    (hothers : ∀ g ∈ requiredNames, g ≠ f → ((parse_args c e).getattr g).isSome = true) :
    runMain (parse_args c e) w =
      { exitCode := 1, messages := [missingMsg f], calls := [],
        prompted := false, sessionAuth := Option.none } := by
  have hfind : requiredNames.find?
      (fun p => ((parse_args c e).getattr p).isNone) = some f := by
    apply find?_eq_of_mem_unique hf
    · simp [hmiss]
    · intro g hg hne
      obtain ⟨x, hx⟩ := Option.isSome_iff_exists.mp (hothers g hg hne)
      simp [hx]
  simp [runMain, hfind]

/-- C2 witness: with every flag and variable set except the Vault address,
the run exits 1 citing `vault_addr` and issues no network call. -/
theorem claim2_missing_param_aborts_witness :
    "vault_addr" ∈ requiredNames ∧
    runMain
      (parse_args
        { vault_addr := Option.none, vault_secret := some "secret/user1",
          key := some "credentials", subkey := some "password",
          awx_url := some "https://awx.example", cred_name := some "cred",
          username := some "admin", password := some "pw", no_verify_tls := false }
        { VAULT_ADDR := Option.none, VAULT_SECRET := Option.none,
          VAULT_KEY := Option.none, VAULT_SUBKEY := Option.none,
          AWX_URL := Option.none, AWX_CRED_NAME := Option.none,
          VAULT_USERNAME := Option.none, VAULT_PASSWORD := Option.none })
      { promptPassword := "typed-at-prompt", vaultLoginExc := Option.none,
        vaultAuthenticated := true, vaultRead := .error "unreached",
        awxFind := .exc "unreached", awxFetch := .exc "unreached",
        awxPatch := .exc "unreached" } =
      { exitCode := 1, messages := [missingMsg "vault_addr"], calls := [],
        prompted := false, sessionAuth := Option.none } :=
  ⟨by decide, claim2_missing_param_aborts _ _ _ _ (by decide) rfl (by decide)⟩

/-- C3: for every secret document (a mapping) in which the two-level key
lookup `key.subkey` yields no value, the run aborts with the
failed-to-retrieve (SecretNotFound) message and exit code 1, and no request
to AWX is ever issued — whatever the AWX endpoints would have answered. -/
theorem claim3_secret_not_found_aborts (doc : List (String × PyValue))
    (k sk : String) (fd ft pt : HttpOutcome)
    (h : lookup2 (PyValue.obj doc) k sk = Except.ok PyValue.none) :
    runMain (mkArgs k sk "cred" (some "pw")) (mkWorld (PyValue.obj doc) fd ft pt) =
      { exitCode := 1, messages := [retrieveFailMsg k sk],
        calls := [NetCall.vaultLogin "admin" "pw", NetCall.vaultRead "secret/user1"],
        prompted := false, sessionAuth := Option.none } := by
  simp [runMain, mkArgs, mkWorld, requiredNames, Args.getattr, authStage, readStage,
    Except.bind, PyValue.getitem, List.lookup, show ("pw".isEmpty = false) from rfl,
    h, PyValue.truthy, St.exit1]

/-- C3 witness: an empty secret document lacks `credentials.password`; the
run exits 1 with the SecretNotFound message after only the two Vault calls. -/
theorem claim3_secret_not_found_aborts_witness :
    lookup2 (PyValue.obj []) "credentials" "password" = Except.ok PyValue.none ∧
    runMain (mkArgs "credentials" "password" "cred" (some "pw"))
        (mkWorld (PyValue.obj [])
          (.resp 200 (findBodyWith [.obj [("id", .int 42)]]) "")
          (.resp 200 (fetchBodyWith []) "") (.resp 200 (.obj []) "")) =
      { exitCode := 1, messages := [retrieveFailMsg "credentials" "password"],
        calls := [NetCall.vaultLogin "admin" "pw", NetCall.vaultRead "secret/user1"],
        prompted := false, sessionAuth := Option.none } :=
  ⟨rfl, claim3_secret_not_found_aborts [] "credentials" "password" _ _ _ rfl⟩

/-- C8: when the two-level lookup resolves but to a falsy value (empty
string, 0, False, None, empty list or empty mapping), the run aborts exactly
as when the path is missing: same SecretNotFound message, exit code 1, and
no AWX request — so a falsy secret value can never be written to the
credential. -/
theorem claim8_falsy_secret_aborts (doc : List (String × PyValue))
    (k sk : String) (v : PyValue) (fd ft pt : HttpOutcome)
    (hres : lookup2 (PyValue.obj doc) k sk = Except.ok v)
    (hv : v.truthy = false) :
    runMain (mkArgs k sk "cred" (some "pw")) (mkWorld (PyValue.obj doc) fd ft pt) =
      { exitCode := 1, messages := [retrieveFailMsg k sk],
        calls := [NetCall.vaultLogin "admin" "pw", NetCall.vaultRead "secret/user1"],
        prompted := false, sessionAuth := Option.none } := by
  simp [runMain, mkArgs, mkWorld, requiredNames, Args.getattr, authStage, readStage,
    Except.bind, PyValue.getitem, List.lookup, show ("pw".isEmpty = false) from rfl,
    hres, hv, St.exit1]

/-- C8 witness: `credentials.password` resolves to the empty string, and the
run aborts with the SecretNotFound message after only the two Vault calls. -/
theorem claim8_falsy_secret_aborts_witness :
    lookup2 (secretDocWith "credentials" "password" (.str ""))
        "credentials" "password" = Except.ok (PyValue.str "") ∧
    (PyValue.str "").truthy = false ∧
    runMain (mkArgs "credentials" "password" "cred" (some "pw"))
        (mkWorld (secretDocWith "credentials" "password" (.str ""))
          (.resp 200 (findBodyWith [.obj [("id", .int 42)]]) "")
          (.resp 200 (fetchBodyWith []) "") (.resp 200 (.obj []) "")) =
      { exitCode := 1, messages := [retrieveFailMsg "credentials" "password"],
        calls := [NetCall.vaultLogin "admin" "pw", NetCall.vaultRead "secret/user1"],
        prompted := false, sessionAuth := Option.none } :=
  ⟨rfl, rfl, claim8_falsy_secret_aborts [("credentials",
      .obj [("password", .str "")])] "credentials" "password" (.str "") _ _ _ rfl rfl⟩

/-- C4: for every find-by-name response whose `results` are empty (or
absent), the run aborts with the RecordNotFound message and exit code 1,
issuing no fetch and no update call — whatever those endpoints would have
answered. -/
theorem claim4_record_not_found_aborts (nm : String) (body : PyValue)
    (text : String) (ft pt : HttpOutcome)
    (hzero : body.getd "results" (PyValue.list []) = Except.ok (PyValue.list [])) :
    runMain (mkArgs "credentials" "password" nm (some "pw"))
        (mkWorld (secretDocWith "credentials" "password" (.str "X"))
          (.resp 200 body text) ft pt) =
      { exitCode := 1, messages := [retrievedMsg, credNotFoundMsg nm],
        calls := [NetCall.vaultLogin "admin" "pw", NetCall.vaultRead "secret/user1",
          NetCall.awxFind nm],
        prompted := false, sessionAuth := some ("admin", "pw") } := by
  cases body with
  | obj fields =>
    have hres : (List.lookup "results" fields).getD (PyValue.list []) = PyValue.list [] := by
      simpa [PyValue.getd] using hzero
    simp [runMain, mkArgs, mkWorld, secretDocWith, requiredNames, Args.getattr,
      authStage, readStage, findStage, lookup2, PyValue.getd, Except.bind,
      PyValue.getitem, List.lookup, show ("pw".isEmpty = false) from rfl,
      show ("X".isEmpty = false) from rfl, hres, PyValue.truthy, St.exit1]
  | none => simp [PyValue.getd] at hzero
  | bool b => simp [PyValue.getd] at hzero
  | int n => simp [PyValue.getd] at hzero
  | str s => simp [PyValue.getd] at hzero
  | list elts => simp [PyValue.getd] at hzero

/-- C4 witness: a response whose `results` list is empty aborts with
RecordNotFound right after the find call. -/
theorem claim4_record_not_found_aborts_witness :
    (findBodyWith []).getd "results" (PyValue.list []) = Except.ok (PyValue.list []) ∧
    runMain (mkArgs "credentials" "password" "cred" (some "pw"))
        (mkWorld (secretDocWith "credentials" "password" (.str "X"))
          (.resp 200 (findBodyWith []) "") (.resp 200 (fetchBodyWith []) "")
          (.resp 200 (.obj []) "")) =
      { exitCode := 1, messages := [retrievedMsg, credNotFoundMsg "cred"],
        calls := [NetCall.vaultLogin "admin" "pw", NetCall.vaultRead "secret/user1",
          NetCall.awxFind "cred"],
        prompted := false, sessionAuth := some ("admin", "pw") } :=
  ⟨rfl, claim4_record_not_found_aborts "cred" (findBodyWith []) "" _ _ rfl⟩

/-- C5: when the PATCH returns any status other than 200 or 202, the failure
line reports that status code and the response body text, and the process
still exits with code 0. -/
theorem claim5_update_failure_reported_exit0 (status : Nat) (text : String)
    (h200 : status ≠ 200) (h202 : status ≠ 202) :
    runMain (mkArgs "credentials" "password" "cred" (some "pw"))
        (happyWorld (.str "X") [.obj [("id", .int 42)]] (fetchBodyWith [])
          (.resp status (.obj []) text)) =
      { exitCode := 0,
        messages := [retrievedMsg, foundMsg "cred" "42",
          updateFailMsg status text],
        calls := [NetCall.vaultLogin "admin" "pw", NetCall.vaultRead "secret/user1",
          NetCall.awxFind "cred", NetCall.awxFetch (.int 42),
          NetCall.awxPatch (.int 42) (.obj [("inputs", .obj [("role_id", .str "X")])])],
        prompted := false, sessionAuth := some ("admin", "pw") } := by
  simp [runMain, mkArgs, mkWorld, happyWorld, secretDocWith, findBodyWith, fetchBodyWith,
    requiredNames, Args.getattr, authStage, readStage, findStage, fetchStage, updateStage,
    lookup2, PyValue.getd, Except.bind, PyValue.getitem, PyValue.item0, List.lookup,
    show ("pw".isEmpty = false) from rfl, show ("X".isEmpty = false) from rfl,
    show (toString (42 : Int) = "42") from rfl, PyValue.truthy, PyValue.pyStr, dictSet,
    h200, h202, St.exit1, St.exit0]

/-- C5 witness: a PATCH answered with HTTP 400 and body text `Bad Request`
is reported as `400 Bad Request` and the exit code is 0. -/
theorem claim5_update_failure_reported_exit0_witness :
    (400 : Nat) ≠ 200 ∧ (400 : Nat) ≠ 202 ∧
    runMain (mkArgs "credentials" "password" "cred" (some "pw"))
        (happyWorld (.str "X") [.obj [("id", .int 42)]] (fetchBodyWith [])
          (.resp 400 (.obj []) "Bad Request")) =
      { exitCode := 0,
        messages := [retrievedMsg, foundMsg "cred" "42",
          updateFailMsg 400 "Bad Request"],
        calls := [NetCall.vaultLogin "admin" "pw", NetCall.vaultRead "secret/user1",
          NetCall.awxFind "cred", NetCall.awxFetch (.int 42),
          NetCall.awxPatch (.int 42) (.obj [("inputs", .obj [("role_id", .str "X")])])],
        prompted := false, sessionAuth := some ("admin", "pw") } :=
  ⟨by decide, by decide,
    claim5_update_failure_reported_exit0 400 "Bad Request" (by decide) (by decide)⟩

/-- C6: on the fully successful path — Vault auth ok, secret truthy, at
least one record found with numeric id `n`, fetch ok, PATCH answered 200 —
the run exits 0 and its final line is the success message, whose text
contains both the credential name and the id. -/
theorem claim6_success_exit0_message (nm : String) (n : Int) (rest : List PyValue)
    (inp : List (String × PyValue)) (r : PyValue) (hr : r.truthy = true) :
    runMain (mkArgs "credentials" "password" nm (some "pw"))
        (happyWorld r (.obj [("id", .int n)] :: rest) (fetchBodyWith inp)
          (.resp 200 (.obj []) "")) =
      { exitCode := 0,
        messages := [retrievedMsg, foundMsg nm (toString n),
          updateSuccessMsg nm (toString n)],
        calls := [NetCall.vaultLogin "admin" "pw", NetCall.vaultRead "secret/user1",
          NetCall.awxFind nm, NetCall.awxFetch (.int n),
          NetCall.awxPatch (.int n) (.obj [("inputs", .obj (dictSet inp "role_id" r))])],
        prompted := false, sessionAuth := some ("admin", "pw") }
    ∧ ∃ pre mid post, updateSuccessMsg nm (toString n) =
        pre ++ (nm ++ (mid ++ (toString n ++ post))) := by
  constructor
  · simp [runMain, mkArgs, mkWorld, happyWorld, secretDocWith, findBodyWith,
      fetchBodyWith, requiredNames, Args.getattr, authStage, readStage, findStage,
      fetchStage, updateStage, lookup2, PyValue.getd, Except.bind, PyValue.getitem,
      PyValue.item0, List.lookup, show ("pw".isEmpty = false) from rfl, hr,
      show ∀ x l, (PyValue.list (x :: l)).truthy = true from fun x l => by
        simp [PyValue.truthy],
      PyValue.pyStr, St.exit1, St.exit0]
  · exact ⟨"✅ Successfully updated 'role_id' for credential '", "' (ID ", ")",
      by simp [updateSuccessMsg, String.append_assoc]⟩

/-- C6 witness: name `my-cred`, id 7, one extra matching record, inputs
`\x7b"a":1\x7d`, secret `"X"`: exit code 0 and the success message names both. -/
theorem claim6_success_exit0_message_witness :
    (PyValue.str "X").truthy = true ∧
    (runMain (mkArgs "credentials" "password" "my-cred" (some "pw"))
        (happyWorld (.str "X") [.obj [("id", .int 7)], .obj [("id", .int 8)]]
          (fetchBodyWith [("a", .int 1)]) (.resp 200 (.obj []) ""))).exitCode = 0 ∧
    (runMain (mkArgs "credentials" "password" "my-cred" (some "pw"))
        (happyWorld (.str "X") [.obj [("id", .int 7)], .obj [("id", .int 8)]]
          (fetchBodyWith [("a", .int 1)]) (.resp 200 (.obj []) ""))).messages.getLast?
      = some (updateSuccessMsg "my-cred" (toString (7 : Int))) :=
  ⟨rfl,
    by rw [(claim6_success_exit0_message "my-cred" 7 [.obj [("id", .int 8)]]
        [("a", .int 1)] (.str "X") rfl).1],
    by
      rw [(claim6_success_exit0_message "my-cred" 7 [.obj [("id", .int 8)]]
        [("a", .int 1)] (.str "X") rfl).1]
      rfl⟩

/-- C7: whenever the find-by-name response has one or more results, the id
used for the subsequent fetch and update calls is the id of the FIRST
result, whatever records follow it. -/
theorem claim7_first_match_wins (first idv : PyValue) (rest : List PyValue)
    (hid : first.getitem "id" = Except.ok idv) :
    (runMain (mkArgs "credentials" "password" "cred" (some "pw"))
        (happyWorld (.str "X") (first :: rest) (fetchBodyWith [])
          (.resp 200 (.obj []) ""))).calls =
      [NetCall.vaultLogin "admin" "pw", NetCall.vaultRead "secret/user1",
        NetCall.awxFind "cred", NetCall.awxFetch idv,
        NetCall.awxPatch idv (.obj [("inputs", .obj [("role_id", .str "X")])])] := by
  cases first with
  | obj fields =>
    cases hl : List.lookup "id" fields with
    | none =>
      rw [PyValue.getitem, hl] at hid
      cases hid
    | some x =>
      have hx : x = idv := by simpa [PyValue.getitem, hl] using hid
      subst hx
      simp [runMain, mkArgs, mkWorld, happyWorld, secretDocWith, findBodyWith,
        fetchBodyWith, requiredNames, Args.getattr, authStage, readStage, findStage,
        fetchStage, updateStage, lookup2, PyValue.getd, Except.bind, PyValue.getitem,
        PyValue.item0, List.lookup, show ("pw".isEmpty = false) from rfl,
        show ("X".isEmpty = false) from rfl, PyValue.truthy, dictSet, hl,
        St.exit1, St.exit0]
  | none => simp [PyValue.getitem] at hid
  | bool b => simp [PyValue.getitem] at hid
  | int n => simp [PyValue.getitem] at hid
  | str s => simp [PyValue.getitem] at hid
  | list elts => simp [PyValue.getitem] at hid

/-- C7 witness: two matching records with ids 3 and 9 — every AWX call after
the find uses id 3, the first result's. -/
theorem claim7_first_match_wins_witness :
    (PyValue.obj [("id", .int 3)]).getitem "id" = Except.ok (PyValue.int 3) ∧
    (runMain (mkArgs "credentials" "password" "cred" (some "pw"))
        (happyWorld (.str "X") [.obj [("id", .int 3)], .obj [("id", .int 9)]]
          (fetchBodyWith []) (.resp 200 (.obj []) ""))).calls =
      [NetCall.vaultLogin "admin" "pw", NetCall.vaultRead "secret/user1",
        NetCall.awxFind "cred", NetCall.awxFetch (.int 3),
        NetCall.awxPatch (.int 3) (.obj [("inputs", .obj [("role_id", .str "X")])])] :=
  ⟨rfl, claim7_first_match_wins (.obj [("id", .int 3)]) (.int 3)
    [.obj [("id", .int 9)]] rfl⟩

/-- The successful world used by the password claim, with the string typed
at the masked prompt as a parameter. -/
def c9World (tp : String) : World :=
  { happyWorld (.str "X") [.obj [("id", .int 42)]] (fetchBodyWith [])
      (.resp 200 (.obj []) "") with promptPassword := tp }

/-- C9: `login_pass = args.password or getpass.getpass(...)` — a password
supplied as the empty string (or not supplied) is treated as absent and the
masked prompt fires, and whichever password results (typed `tp` or supplied
`p`) is the one used both for the Vault userpass login and as the AWX
session's basic-auth password. -/
theorem claim9_empty_password_prompts (tp : String) (pw : Option String) :
    ((pw = some "" ∨ pw = Option.none) →
      (runMain (mkArgs "credentials" "password" "cred" pw) (c9World tp)).prompted = true ∧
      (runMain (mkArgs "credentials" "password" "cred" pw) (c9World tp)).calls.head?
        = some (NetCall.vaultLogin "admin" tp) ∧
      (runMain (mkArgs "credentials" "password" "cred" pw) (c9World tp)).sessionAuth
        = some ("admin", tp)) ∧
    (∀ p, pw = some p → p ≠ "" →
      (runMain (mkArgs "credentials" "password" "cred" pw) (c9World tp)).prompted = false ∧
      (runMain (mkArgs "credentials" "password" "cred" pw) (c9World tp)).calls.head?
        = some (NetCall.vaultLogin "admin" p) ∧
      (runMain (mkArgs "credentials" "password" "cred" pw) (c9World tp)).sessionAuth
        = some ("admin", p)) := by
  constructor
  · intro h
    rcases h with h | h <;>
      simp [h, show ("".isEmpty = true) from rfl, runMain, mkArgs, mkWorld, happyWorld, c9World, secretDocWith,
        findBodyWith, fetchBodyWith, requiredNames, Args.getattr, authStage,
        readStage, findStage, fetchStage, updateStage, lookup2, PyValue.getd,
        Except.bind, PyValue.getitem, PyValue.item0, List.lookup,
        show ("X".isEmpty = false) from rfl, PyValue.truthy, PyValue.pyStr,
        dictSet, St.exit1, St.exit0]
  · intro p hp hne
    have hpe : p.isEmpty = false := by
      cases he : p.isEmpty with
      | true => exact absurd ((String.isEmpty_iff p).mp he) hne
      | false => rfl
    subst hp
    simp [runMain, mkArgs, mkWorld, happyWorld, c9World, secretDocWith,
      findBodyWith, fetchBodyWith, requiredNames, Args.getattr, authStage,
      readStage, findStage, fetchStage, updateStage, lookup2, PyValue.getd,
      Except.bind, PyValue.getitem, PyValue.item0, List.lookup, hpe,
      show ("X".isEmpty = false) from rfl, PyValue.truthy, PyValue.pyStr,
      dictSet, St.exit1, St.exit0]

/-- C9 witness: with `--password ""` the prompt fires and the typed string
`typed` is used for the Vault login and the AWX basic auth; with
`--password pw` it does not fire and `pw` is used for both. -/
theorem claim9_empty_password_prompts_witness :
    ((runMain (mkArgs "credentials" "password" "cred" (some "")) (c9World "typed")).prompted = true ∧
      (runMain (mkArgs "credentials" "password" "cred" (some "")) (c9World "typed")).calls.head?
        = some (NetCall.vaultLogin "admin" "typed") ∧
      (runMain (mkArgs "credentials" "password" "cred" (some "")) (c9World "typed")).sessionAuth
        = some ("admin", "typed")) ∧
    ((runMain (mkArgs "credentials" "password" "cred" (some "pw")) (c9World "typed")).prompted = false ∧
      (runMain (mkArgs "credentials" "password" "cred" (some "pw")) (c9World "typed")).calls.head?
        = some (NetCall.vaultLogin "admin" "pw") ∧
      (runMain (mkArgs "credentials" "password" "cred" (some "pw")) (c9World "typed")).sessionAuth
        = some ("admin", "pw")) :=
  ⟨(claim9_empty_password_prompts "typed" (some "")).1 (Or.inl rfl),
    (claim9_empty_password_prompts "typed" (some "pw")).2 "pw" rfl
      (by decide)⟩

/-- C10: when the fetched credential document has no `inputs` key at all,
the run does not fail: the merge starts from the empty mapping and the
submitted body is exactly `\x7b"inputs": \x7b"role_id": r\x7d\x7d`. -/
theorem claim10_missing_inputs_merges_from_empty (fields : List (String × PyValue))
    (r : PyValue) (hno : List.lookup "inputs" fields = Option.none)
    (hr : r.truthy = true) :
    runMain (mkArgs "credentials" "password" "cred" (some "pw"))
        (happyWorld r [.obj [("id", .int 42)]] (.obj fields)
          (.resp 200 (.obj []) "")) =
      { exitCode := 0,
        messages := [retrievedMsg, foundMsg "cred" "42", updateSuccessMsg "cred" "42"],
        calls := [NetCall.vaultLogin "admin" "pw", NetCall.vaultRead "secret/user1",
          NetCall.awxFind "cred", NetCall.awxFetch (.int 42),
          NetCall.awxPatch (.int 42) (.obj [("inputs", .obj [("role_id", r)])])],
        prompted := false, sessionAuth := some ("admin", "pw") } := by
  simp [runMain, mkArgs, mkWorld, happyWorld, secretDocWith, findBodyWith,
    requiredNames, Args.getattr, authStage, readStage, findStage, fetchStage,
    updateStage, lookup2, PyValue.getd, Except.bind, PyValue.getitem,
    PyValue.item0, List.lookup, show ("pw".isEmpty = false) from rfl, hr, hno,
    show ((PyValue.list [PyValue.obj [("id", PyValue.int 42)]]).truthy = true) from rfl,
    show (toString (42 : Int) = "42") from rfl, PyValue.pyStr, dictSet,
    St.exit1, St.exit0]

/-- C10 witness: a fetched document with only a `name` field (no `inputs`)
still succeeds and submits `\x7b"inputs": \x7b"role_id": "X"\x7d\x7d`. -/
theorem claim10_missing_inputs_merges_from_empty_witness :
    List.lookup "inputs" [("name", PyValue.str "cred")] = Option.none ∧
    (PyValue.str "X").truthy = true ∧
    runMain (mkArgs "credentials" "password" "cred" (some "pw"))
        (happyWorld (.str "X") [.obj [("id", .int 42)]]
          (.obj [("name", PyValue.str "cred")]) (.resp 200 (.obj []) "")) =
      { exitCode := 0,
        messages := [retrievedMsg, foundMsg "cred" "42", updateSuccessMsg "cred" "42"],
        calls := [NetCall.vaultLogin "admin" "pw", NetCall.vaultRead "secret/user1",
          NetCall.awxFind "cred", NetCall.awxFetch (.int 42),
          NetCall.awxPatch (.int 42) (.obj [("inputs", .obj [("role_id", .str "X")])])],
        prompted := false, sessionAuth := some ("admin", "pw") } :=
  ⟨rfl, rfl, claim10_missing_inputs_merges_from_empty [("name", PyValue.str "cred")]
    (.str "X") rfl rfl⟩
